import Mathlib

/-
Verification development for the mcp_procman process manager
(src/mcp_process_manager: ring_buffer.py, process_handler.py,
process_manager.py). Python code is shallowly embedded: strings are Lean
String (a sequence of Unicode code points, as in Python), Python ints are
Int, realistic side effects (the re and fnmatch modules, subprocess spawn
outcomes, process exit polling) are passed as explicit oracle parameters.
-/

/-- UTF-8 byte length of one code point, as computed by Python
    len(ch.encode(utf8)). -/
def charUtf8Len (c : Char) : Nat :=
  if c.val < 0x80 then 1
  else if c.val < 0x800 then 2
  else if c.val < 0x10000 then 3
  else 4

/-- UTF-8 byte length of a string: Python len(s.encode(utf8)). -/
def utf8Len (s : List Char) : Nat :=
  (s.map charUtf8Len).sum

/-- Python s[-n:] on a sequence: for n = 0 Python yields the whole
    sequence (s[-0:] is s[0:]); for n > 0 the trailing min(n, len) items. -/
def pyTail (s : List Char) (n : Nat) : List Char :=
  if n = 0 then s else s.drop (s.length - n)

/-- Python l[-n:] on a list, for an int n that is known to be positive
    at the call site (all call sites guard with n <= 0 first). -/
def pyLastN (l : List String) (n : Int) : List String :=
  l.drop (l.length - n.toNat)

/-- Does the first list occur as a leading segment of the second. -/
def listLeads [DecidableEq α] : List α → List α → Bool
  | [], _ => true
  | _ :: _, [] => false
  | a :: as, b :: bs => decide (a = b) && listLeads as bs

/-- Does the first list occur contiguously inside the second
    (Python substring containment on character lists). -/
def listHas [DecidableEq α] (needle : List α) : List α → Bool
  | [] => listLeads needle []
  | b :: t => listLeads needle (b :: t) || listHas needle t

/-- Python s.startswith(p). -/
def strLeads (p s : String) : Bool := listLeads p.data s.data

/-- Python p in s (substring containment). -/
def strHas (p s : String) : Bool := listHas p.data s.data

/-- Python "; ".join(l). -/
def joinSemi : List String → String
  | [] => ""
  | [x] => x
  | x :: y :: t => x ++ "; " ++ joinSemi (y :: t)

/-- Characters stripped by Python str.strip() with no argument. -/
def pySpace (c : Char) : Bool :=
  c = ' ' || c = '\t' || c = '\n' || c = '\r' || c = '\x0b' || c = '\x0c'

/-- Python s.strip(). -/
def pyStrip (s : String) : String :=
  String.mk (((s.data.dropWhile pySpace).reverse.dropWhile pySpace).reverse)

/-- State of RingBuffer (ring_buffer.py): max_size_bytes is fixed at
    creation; buffer is the deque of retained entries oldest first;
    current_size is the byte counter the code maintains (a Python int,
    so it can in principle go negative; hence Int). -/
structure RingBuffer where
  max_size_bytes : Nat
  buffer : List String
  current_size : Int
  deriving DecidableEq, Repr

/-- Eviction loop of RingBuffer.append: while
    current_size + data_size > max_size_bytes and the deque is nonempty,
    pop the oldest entry and subtract its encoded byte length. -/
def evictLoop : List String → Int → Nat → Nat → List String × Int
  | [], cur, _, _ => ([], cur)
  | l :: ls, cur, ds, maxb =>
      if cur + (ds : Int) > (maxb : Int) then
        evictLoop ls (cur - (utf8Len l.data : Int)) ds maxb
      else (l :: ls, cur)

/-- RingBuffer.append (ring_buffer.py lines 53-84): measures the entry in
    UTF-8 bytes; if that exceeds max_size_bytes, replaces the entry by
    data[-max_size_bytes:] (a character slice) and asserts its size to be
    max_size_bytes; evicts oldest entries until the new entry fits; appends
    at the tail. -/
def RingBuffer.append (rb : RingBuffer) (data : String) : RingBuffer :=
  let dataSize := utf8Len data.data
  let trimmed :=
    if dataSize > rb.max_size_bytes then
      (String.mk (pyTail data.data rb.max_size_bytes), rb.max_size_bytes)
    else (data, dataSize)
  let ev := evictLoop rb.buffer rb.current_size trimmed.2 rb.max_size_bytes
  { rb with buffer := ev.1 ++ [trimmed.1], current_size := ev.2 + (trimmed.2 : Int) }

/-- RingBuffer.get_lines: all lines when max_lines <= 0, otherwise the
    trailing max_lines entries, oldest first. -/
def RingBuffer.get_lines (rb : RingBuffer) (max_lines : Int) : List String :=
  if max_lines ≤ 0 then rb.buffer else pyLastN rb.buffer max_lines

/-- RingBuffer.search_string: a None pattern is an in-band error; otherwise
    filters lines by substring containment and truncates to the trailing
    max_lines matches (all matches when max_lines <= 0). An empty string
    pattern is not rejected: "" in line is True for every line. -/
def RingBuffer.search_string (rb : RingBuffer) (search_str : Option String)
    (max_lines : Int) : List String :=
  match search_str with
  | none => ["ERROR: Search string cannot be None"]
  | some s =>
      let hits := rb.buffer.filter (fun line => strHas s line)
      if max_lines ≤ 0 then hits else pyLastN hits max_lines

/-- RingBuffer.search_regex with re.compile modeled as an oracle result:
    Except.error carries the compile failure text (the except branch
    returns an in-band ERROR entry), Except.ok the compiled predicate
    (pattern.search(line) is not None). -/
def RingBuffer.search_regex (rb : RingBuffer)
    (compiled : Except String (String → Bool)) (max_lines : Int) : List String :=
  match compiled with
  | .error e => ["ERROR: Invalid regex pattern: " ++ e]
  | .ok p =>
      let hits := rb.buffer.filter (fun line => p line)
      if max_lines ≤ 0 then hits else pyLastN hits max_lines

/-- RingBuffer.search_wildcard with fnmatch.fnmatch modeled as the oracle
    gmatch (trimmed line, pattern). An empty pattern is an in-band error
    (Python falsiness check); matching is applied to the stripped line. -/
def RingBuffer.search_wildcard (rb : RingBuffer) (gmatch : String → String → Bool)
    (wildcard_pattern : String) (max_lines : Int) : List String :=
  if wildcard_pattern = "" then
    ["ERROR: Empty wildcard pattern provided"]
  else
    let hits := rb.buffer.filter (fun line => gmatch (pyStrip line) wildcard_pattern)
    if max_lines ≤ 0 then hits else pyLastN hits max_lines

/-- RingBuffer.clear. -/
def RingBuffer.clear (rb : RingBuffer) : RingBuffer :=
  { rb with buffer := [], current_size := 0 }

/-- RingBuffer.get_size. -/
def RingBuffer.get_size (rb : RingBuffer) : Int := rb.current_size

/-- Total UTF-8 byte length actually retained in a buffer. -/
def bufBytes (l : List String) : Nat :=
  (l.map (fun s => utf8Len s.data)).sum

/-- Lifecycle state of ProcessHandler. In the code this is a plain string:
    initialized, running, completed, error (spawn or pipeline failure, the
    detail kept in the separate error field), or the composite string
    "error: Exit code c" for a nonzero exit. The composite string differs
    from the plain string "error", which matters for the kill guard
    (state in the two-element list of running and error). -/
inductive PState where
  | initialized
  | running
  | completed
  | error
  | errorExit (code : Int)
  deriving DecidableEq, Repr

/-- Rendering of a PState back to the string the Python code stores. -/
def stateStr : PState → String
  | .initialized => "initialized"
  | .running => "running"
  | .completed => "completed"
  | .error => "error"
  | .errorExit c => "error: Exit code " ++ toString c

/-- The kill guard of ProcessHandler.kill: state in ["running", "error"].
    Note "error: Exit code c" is not the string "error", so errorExit
    states fail this guard while the plain error state passes it. -/
def stateKillable : PState → Bool
  | .running => true
  | .error => true
  | _ => false

/-- State of one ProcessHandler (process_handler.py): processSome models
    self.process being non-None; exited models self.process.poll(), the
    exit status once the OS process has exited; stdinOpen models
    self.process.stdin being open. -/
structure ProcessHandler where
  command : List String
  processSome : Bool
  pid : Option Nat
  state : PState
  error : Option String
  exited : Option Int
  stdinOpen : Bool
  stopEvent : Bool
  buffer : RingBuffer
  deriving DecidableEq, Repr

/-- A fresh ProcessHandler as built by the constructor. -/
def mkHandler (command : List String) : ProcessHandler :=
  { command := command, processSome := false, pid := none,
    state := .initialized, error := none, exited := none,
    stdinOpen := false, stopEvent := false,
    buffer := { max_size_bytes := 10 * 1024 * 1024, buffer := [], current_size := 0 } }

/-- Outcome of the subprocess.Popen call in ProcessHandler.start: success
    with an OS pid, or one of the four typed exception branches the code
    catches (FileNotFoundError, IndexError, PermissionError,
    subprocess.SubprocessError), each with the exception text. -/
inductive SpawnOutcome where
  | ok (pid : Nat)
  | errNotFound (msg : String)
  | errIndexErr (msg : String)
  | errPerm (msg : String)
  | errSub (msg : String)
  deriving DecidableEq, Repr

/-- ProcessHandler.start (process_handler.py lines 66-161): rejects a second
    start and an empty command; on a spawn exception sets state to error with
    the typed message and returns a failed status with no pid; on success
    records the pid, sets running and launches the reader and assembler
    threads (thread launch is a side effect outside the state). -/
def ProcessHandler.start (h : ProcessHandler) (oc : SpawnOutcome) : ProcessHandler × String × Option Nat :=
  if h.processSome then (h, "failed: Process already started", none)
  else if h.command = [] then (h, "failed: Command list cannot be empty", none)
  else
    match oc with
    | .ok p =>
        ({ h with processSome := true, pid := some p, state := .running,
                  stdinOpen := true, stopEvent := false },
         "success", some p)
    | .errNotFound m =>
        ({ h with state := .error, error := some ("Command not found: " ++ m) },
         "failed: Command not found: " ++ m, none)
    | .errIndexErr m =>
        ({ h with state := .error, error := some ("Invalid command format: " ++ m) },
         "failed: Invalid command format: " ++ m, none)
    | .errPerm m =>
        ({ h with state := .error, error := some ("Permission denied: " ++ m) },
         "failed: Permission denied: " ++ m, none)
    | .errSub m =>
        ({ h with state := .error, error := some ("Subprocess error: " ++ m) },
         "failed: Subprocess error: " ++ m, none)

/-- ProcessHandler.kill (process_handler.py lines 286-331): fails when there
    is no process or the state is outside the killable list; otherwise sends
    the kill signal (third component true) and sleep-polls for exit; on a
    timeout reports failure with state unchanged, on observed exit sets
    completed and the stop event. exitObserved models whether the poll loop
    saw the process exit within the timeout window. -/
def ProcessHandler.kill (h : ProcessHandler) (exitObserved : Bool) : ProcessHandler × String × Bool :=
  if ¬ h.processSome then (h, "failed: No process to kill", false)
  else if ¬ stateKillable h.state then (h, "failed: Process not running", false)
  else if ¬ exitObserved then (h, "failed: Process did not terminate within timeout", true)
  else ({ h with state := .completed, stopEvent := true }, "success", true)

/-- Exit-status polling logic shared by the assembler idle branch
    (process_handler.py lines 228-238) and get_status (lines 262-271): a
    running state becomes completed on exit status zero and the composite
    exit-code error state on a nonzero status; any other state, or a
    process that has not exited, is left unchanged. -/
def pollUpdate (s : PState) (exit : Option Int) : PState :=
  match s, exit with
  | .running, some c => if c = 0 then .completed else .errorExit c
  | s, _ => s

/-- ProcessHandler.get_status (process_handler.py lines 250-284): re-polls
    liveness when running, then reports the command, the rendered state,
    and the trailing 300 characters of the last five buffered lines. -/
structure Status where
  command : List String
  state : String
  last_five_lines : String
  deriving DecidableEq, Repr

/-- Concatenation of a list of strings (Python "".join). -/
def joinAll : List String → String
  | [] => ""
  | x :: t => x ++ joinAll t

def ProcessHandler.get_status (h : ProcessHandler) (pollr : Option Int) : Status × ProcessHandler :=
  let newState := if h.processSome then pollUpdate h.state pollr else h.state
  let lastOut := joinAll (h.buffer.get_lines 5)
  let lastOut := if lastOut.length > 300 then String.mk (pyTail lastOut.data 300) else lastOut
  ({ command := h.command, state := stateStr newState, last_five_lines := lastOut },
   { h with state := newState })

/-- ProcessHandler.get_output_lines: delegates to the buffer under the
    session lock. -/
def ProcessHandler.get_output_lines (h : ProcessHandler) (max_lines : Int) : List String :=
  h.buffer.get_lines max_lines

/-- ProcessHandler.search_output (process_handler.py lines 374-416):
    dispatches on the search type, returns an in-band ERROR entry for an
    unknown type, and otherwise returns whatever the buffer search
    returned - the error check on the first element only logs; both
    branches return the same list. The regex compile and fnmatch oracles
    are threaded through. rcompile none stands for a pattern that was
    passed as Python None to a non-string mode, which raises inside the
    try block and is caught as an unexpected-error entry. -/
def ProcessHandler.search_output (h : ProcessHandler)
    (rcompile : String → Except String (String → Bool))
    (gmatch : String → String → Bool)
    (search_type : String) (pattern : Option String) (max_lines : Int) : List String :=
  if search_type = "string" then
    h.buffer.search_string pattern max_lines
  else if search_type = "regex" then
    match pattern with
    | none => ["ERROR: Unexpected error during search: pattern is None"]
    | some p => h.buffer.search_regex (rcompile p) max_lines
  else if search_type = "wildcard" then
    match pattern with
    | none => ["ERROR: Unexpected error during search: pattern is None"]
    | some p => h.buffer.search_wildcard gmatch p max_lines
  else
    ["ERROR: Invalid search type: " ++ search_type]

/-- ProcessHandler.send_line (process_handler.py lines 418-458): requires a
    process, the running state and an open stdin; appends a newline when
    absent and reports success (the write itself is an external effect). -/
def ProcessHandler.send_line (h : ProcessHandler) (_line : String) : String :=
  if ¬ h.processSome then "failed: No process running"
  else if ¬ (h.state = .running) then "failed: Process not in running state"
  else if ¬ h.stdinOpen then "failed: Process stdin not available"
  else "success"

/-- ProcessHandler.send_chars: same guards as send_line, without the
    newline normalization. -/
def ProcessHandler.send_chars (h : ProcessHandler) (_chars : String) : String :=
  if ¬ h.processSome then "failed: No process running"
  else if ¬ (h.state = .running) then "failed: Process not in running state"
  else if ¬ h.stdinOpen then "failed: Process stdin not available"
  else "success"

/-- One assembler or status poll observing the liveness of the process
    (the idle branch of _process_output, entered when the queue poll timed
    out with the pending accumulator already flushed, or a get_status
    call): the state moves by pollUpdate on the observed exit status. -/
inductive PollStep : ProcessHandler → ProcessHandler → Prop where
  | mk (h : ProcessHandler) (c : Int) (hex : h.exited = some c) :
      PollStep h { h with state := pollUpdate h.state (some c) }

/-- A successful ProcessHandler.kill: requires a process in a killable
    state; the process dies with some exit status c (nonzero for a killed
    process) and the state is set to completed regardless of c. -/
inductive KillStep : ProcessHandler → ProcessHandler → Prop where
  | mk (h : ProcessHandler) (c : Int) (hp : h.processSome = true)
      (hk : stateKillable h.state = true) :
      KillStep h { h with state := .completed, exited := some c, stopEvent := true }

/-- The assembler consuming a reader error marker (process_handler.py
    lines 197-201): records the detail and sets the plain error state. -/
inductive MarkerStep : ProcessHandler → ProcessHandler → Prop where
  | mk (h : ProcessHandler) (msg : String) :
      MarkerStep h { h with state := .error, error := some msg }

/-- Any state transition a live session can take: a liveness poll, a
    successful kill, or an error marker. -/
def SessionStep (h h2 : ProcessHandler) : Prop :=
  PollStep h h2 ∨ KillStep h h2 ∨ MarkerStep h h2

/-- The in-band error classification used at every call site of a search
    (process_handler.py line 407, process_manager.py lines 361 and 456):
    the result counts as a failure exactly when it is nonempty and its
    first element starts with the ERROR prefix. -/
def isErrorResult : List String → Bool
  | [] => false
  | x :: _ => strLeads "ERROR:" x

/-- The registry mapping pid to handler (self.processes), as an
    association list with unique keys. -/
def Registry : Type := List (Nat × ProcessHandler)

/-- Python self.processes.get(pid). -/
def regLookup : List (Nat × ProcessHandler) → Nat → Option ProcessHandler
  | [], _ => none
  | (q, g) :: rest, p => if q = p then some g else regLookup rest p

/-- Python self.processes[pid] = h (update in place or append). -/
def regSet : List (Nat × ProcessHandler) → Nat → ProcessHandler → List (Nat × ProcessHandler)
  | [], p, h => [(p, h)]
  | (q, g) :: rest, p, h =>
      if q = p then (p, h) :: rest else (q, g) :: regSet rest p h

/-- ProcessManager.process_start (process_manager.py lines 90-131):
    validates a nonempty command, builds a fresh handler, starts it, and
    stores it in the registry only when the returned status contains the
    substring success and the pid is not None. -/
def process_start (reg : List (Nat × ProcessHandler)) (command : List String)
    (oc : SpawnOutcome) : List (Nat × ProcessHandler) × String × Option Nat :=
  if command = [] then (reg, "failed: Command list cannot be empty", none)
  else
    let r := (mkHandler command).start oc
    match r.2.2 with
    | some p =>
        if strHas "success" r.2.1 then (regSet reg p r.1, r.2.1, some p)
        else (reg, r.2.1, some p)
    | none => (reg, r.2.1, none)

/-- ProcessManager.process_status (lines 133-158): looks up the handler
    under the registry lock; when absent returns the not-found status
    dictionary; otherwise delegates to get_status (which re-polls and may
    update the stored handler state). -/
def process_status (reg : List (Nat × ProcessHandler)) (pid : Nat)
    (pollr : Option Int) : Status × List (Nat × ProcessHandler) :=
  match regLookup reg pid with
  | none =>
      ({ command := [], state := "error: Process not found", last_five_lines := "" }, reg)
  | some h =>
      let r := h.get_status pollr
      (r.1, regSet reg pid r.2)

/-- ProcessManager.process_kill (lines 160-185): looks up under the
    registry lock, fails when absent, otherwise delegates to handler.kill
    (inside the lock) and stores the mutated handler. -/
def process_kill (reg : List (Nat × ProcessHandler)) (pid : Nat)
    (exitObserved : Bool) : String × List (Nat × ProcessHandler) :=
  match regLookup reg pid with
  | none => ("failed: Process not found", reg)
  | some h =>
      let r := h.kill exitObserved
      (r.2.1, regSet reg pid r.1)

/-- Fold of ProcessManager.all_kill over the registry snapshot (lines
    260-272): every handler in the running state receives a kill; a result
    containing the substring failed is recorded as a per-pid error entry;
    handlers in other states are left alone. The exit oracle gives each
    pid its kill outcome. -/
def killFold (oracle : Nat → Bool) :
    List (Nat × ProcessHandler) → List (Nat × ProcessHandler) × List String
  | [] => ([], [])
  | (pid, h) :: rest =>
      let step :=
        if h.state = .running then
          let r := h.kill (oracle pid)
          (r.1, if strHas "failed" r.2.1 then ["PID " ++ toString pid ++ ": " ++ r.2.1] else [])
        else (h, [])
      let tail := killFold oracle rest
      ((pid, step.1) :: tail.1, step.2 ++ tail.2)

/-- ProcessManager.all_kill (lines 246-280): runs the fold and reports
    success when no per-pid error was recorded, otherwise a single failed
    status joining every error entry. -/
def all_kill (reg : List (Nat × ProcessHandler)) (oracle : Nat → Bool) :
    List (Nat × ProcessHandler) × String :=
  let r := killFold oracle reg
  (r.1, if r.2 = [] then "success" else "failed: " ++ joinSemi r.2)

/-- Fold of ProcessManager.all_search over the registry (lines 355-371):
    each handler is searched; a result classified as an error is diverted
    to the error list as a PID-tagged copy of its first element and the
    session is skipped; a nonempty non-error result is kept as a
    pid-result pair; empty results are dropped. -/
def searchFold (rcompile : String → Except String (String → Bool))
    (gmatch : String → String → Bool)
    (search_type : String) (pattern : Option String) (maxPer : Int) :
    List (Nat × ProcessHandler) → List (Int × List String) × List String
  | [] => ([], [])
  | (pid, h) :: rest =>
      let hits := h.search_output rcompile gmatch search_type pattern maxPer
      let tail := searchFold rcompile gmatch search_type pattern maxPer rest
      if isErrorResult hits then
        (tail.1, ("PID " ++ toString pid ++ ": " ++ hits.headD "") :: tail.2)
      else if hits = [] then tail
      else (((pid : Int), hits) :: tail.1, tail.2)

/-- ProcessManager.all_search (lines 321-379): validates the mode and the
    pattern once (None or empty string is rejected), fans out to every
    session, and appends a sentinel entry with pid -1 joining every error
    when any occurred. -/
def all_search (reg : List (Nat × ProcessHandler))
    (rcompile : String → Except String (String → Bool))
    (gmatch : String → String → Bool)
    (search_type : String) (pattern : Option String) (maxPer : Int) :
    List (Int × List String) :=
  if ¬ (search_type = "string" ∨ search_type = "regex" ∨ search_type = "wildcard") then
    [(-1, ["ERROR: Invalid search type: " ++ search_type])]
  else if pattern = none ∨ pattern = some "" then
    [(-1, ["ERROR: Search pattern cannot be empty"])]
  else
    let r := searchFold rcompile gmatch search_type pattern maxPer reg
    if r.2 = [] then r.1 else r.1 ++ [(-1, ["ERROR: " ++ joinSemi r.2])]

/-- ProcessManager.stdio_get_lines (lines 381-410): not-found pids get an
    in-band ERROR entry; otherwise delegates to the handler. -/
def stdio_get_lines (reg : List (Nat × ProcessHandler)) (pid : Nat)
    (max_lines : Int) : List String × List (Nat × ProcessHandler) :=
  match regLookup reg pid with
  | none => (["ERROR: Process not found: pid=" ++ toString pid], reg)
  | some h => (h.get_output_lines max_lines, reg)

/-- ProcessManager.stdio_search_lines (lines 412-461): looks up the
    handler, validates the mode and the pattern (None or empty string is a
    ValidationError), then delegates; the trailing error check only logs,
    both branches return the delegated list unchanged. -/
def stdio_search_lines (reg : List (Nat × ProcessHandler)) (pid : Nat)
    (rcompile : String → Except String (String → Bool))
    (gmatch : String → String → Bool)
    (search_type : String) (pattern : Option String) (max_lines : Int) :
    List String × List (Nat × ProcessHandler) :=
  match regLookup reg pid with
  | none => (["ERROR: Process not found: pid=" ++ toString pid], reg)
  | some h =>
      if ¬ (search_type = "string" ∨ search_type = "regex" ∨ search_type = "wildcard") then
        (["ERROR: Invalid search type: " ++ search_type], reg)
      else if pattern = none ∨ pattern = some "" then
        (["ERROR: Search pattern cannot be empty"], reg)
      else
        (h.search_output rcompile gmatch search_type pattern max_lines, reg)

/-- ProcessManager.stdio_send_line (lines 463-489): not-found pids fail;
    otherwise delegates to handler.send_line. -/
def stdio_send_line (reg : List (Nat × ProcessHandler)) (pid : Nat)
    (line : String) : String × List (Nat × ProcessHandler) :=
  match regLookup reg pid with
  | none => ("failed: Process not found", reg)
  | some h => (h.send_line line, reg)

/-- ProcessManager.stdio_send_chars (lines 491-517): not-found pids fail;
    otherwise delegates to handler.send_chars. -/
def stdio_send_chars (reg : List (Nat × ProcessHandler)) (pid : Nat)
    (chars : String) : String × List (Nat × ProcessHandler) :=
  match regLookup reg pid with
  | none => ("failed: Process not found", reg)
  | some h => (h.send_chars chars, reg)

/-- Atomic lock and delegation events, for the lock-discipline claims:
    registry lock acquire and release (the with self.lock block in
    ProcessManager), session lock acquire and release (the with self.lock
    block in ProcessHandler), the registry lookup, the delegated
    per-session kill, and one sleep iteration of the kill poll loop. -/
inductive Ev where
  | regAcq
  | regRel
  | sessAcq
  | sessRel
  | lookupId (pid : Nat)
  | delegateKill (pid : Nat)
  | sleepPoll
  deriving DecidableEq, Repr

/-- Event skeleton of ProcessHandler.kill (process_handler.py lines
    296-327): everything, including the sleep-poll wait for process exit,
    happens inside the session lock; the registry lock is never touched. -/
def handler_kill_trace : List Ev :=
  [Ev.sessAcq, Ev.sleepPoll, Ev.sessRel]

/-- Event skeleton of ProcessManager.process_kill (process_manager.py
    lines 171-185): the with self.lock block spans the lookup, the
    delegated handler.kill (with its sleep-poll loop), and the return. -/
def process_kill_trace (pid : Nat) : List Ev :=
  [Ev.regAcq, Ev.lookupId pid, Ev.delegateKill pid] ++ handler_kill_trace ++ [Ev.regRel]

/-- Event skeleton of ProcessManager.all_kill (lines 260-273): the with
    self.lock block spans every delegated kill. -/
def all_kill_trace (pids : List Nat) : List Ev :=
  [Ev.regAcq] ++ (pids.map (fun p => [Ev.delegateKill p] ++ handler_kill_trace)).flatten ++ [Ev.regRel]

/-- Does an event satisfying p occur while the registry lock depth is
    positive. -/
def occursUnderRegLock (p : Ev → Bool) : Nat → List Ev → Bool
  | _, [] => false
  | d, e :: t =>
      match e with
      | .regAcq => occursUnderRegLock p (d + 1) t
      | .regRel => occursUnderRegLock p (d - 1) t
      | e => (p e && decide (0 < d)) || occursUnderRegLock p d t

/-- Is the event a delegated per-session kill. -/
def isDelegate : Ev → Bool
  | .delegateKill _ => true
  | _ => false

/-- Is the event a sleep iteration of the kill poll loop. -/
def isSleep : Ev → Bool
  | .sleepPoll => true
  | _ => false

/-- An empty ring buffer of a given capacity. -/
def emptyBuf (cap : Nat) : RingBuffer :=
  { max_size_bytes := cap, buffer := [], current_size := 0 }

/-- A regex-compile oracle that rejects every pattern; used where the
    regex mode is not exercised. -/
def rcTrivial : String → Except String (String → Bool) :=
  fun _ => Except.error "compile not modeled"

/-- A wildcard oracle that matches nothing; used where the wildcard mode
    is not exercised. -/
def gmTrivial : String → String → Bool := fun _ _ => false

/-- The buffer state after appending a two-character multi-byte entry
    (four UTF-8 bytes) to an empty buffer of capacity two bytes. -/
def c1out : RingBuffer := (emptyBuf 2).append "éé"

/-- A session in the Running state with a live process that has not yet
    been observed to exit. -/
def c2run : ProcessHandler :=
  { command := ["sleep", "10"], processSome := true, pid := some 42,
    state := .running, error := none, exited := none,
    stdinOpen := true, stopEvent := false, buffer := emptyBuf 10 }

/-- The session resulting from a successful kill of c2run whose process
    died from the kill signal with exit status -9. -/
def c2killed : ProcessHandler :=
  { c2run with state := .completed, exited := some (-9), stopEvent := true }

/-- A Running session whose process has exited with status zero. -/
def c2wRun : ProcessHandler :=
  { command := ["echo", "hi"], processSome := true, pid := some 43,
    state := .running, error := none, exited := some 0,
    stdinOpen := true, stopEvent := false, buffer := emptyBuf 10 }

/-- c2wRun after a poll observed the zero exit status. -/
def c2wDone : ProcessHandler :=
  { c2wRun with state := .completed }

/-- A session in the plain error state (a pipeline error marker was
    recorded) whose OS process is still attached. -/
def c3h : ProcessHandler :=
  { command := ["cat"], processSome := true, pid := some 5,
    state := .error, error := some "io failure", exited := none,
    stdinOpen := true, stopEvent := false, buffer := emptyBuf 10 }

/-- A session in the terminal completed state with a process attached. -/
def c3done : ProcessHandler :=
  { command := ["true"], processSome := true, pid := some 6,
    state := .completed, error := none, exited := some 0,
    stdinOpen := false, stopEvent := true, buffer := emptyBuf 10 }

/-- A session with an empty output buffer. -/
def c4h : ProcessHandler := mkHandler ["cat"]

/-- A buffer holding a single line. -/
def c5rb : RingBuffer :=
  { max_size_bytes := 100, buffer := ["alpha"], current_size := 5 }

/-- A one-session registry for the validation witness. -/
def c5reg : List (Nat × ProcessHandler) := [(3, mkHandler ["cat"])]

/-- The per-entry error message all_kill records for a failing kill. -/
def killFailMsg (oracle : Nat → Bool) (e : Nat × ProcessHandler) : String :=
  "PID " ++ toString e.1 ++ ": " ++ (e.2.kill (oracle e.1)).2.1

/-- Did this registry entry hold a running session whose kill failed. -/
def killFailed (oracle : Nat → Bool) (e : Nat × ProcessHandler) : Bool :=
  decide (e.2.state = PState.running) && strHas "failed" (e.2.kill (oracle e.1)).2.1

/-- A two-session registry: one running session that will refuse to die
    within the timeout, one running session that dies promptly. -/
def c7reg : List (Nat × ProcessHandler) :=
  [(1, { c2run with pid := some 1 }), (2, { c2run with pid := some 2 })]

/-- Exit oracle for c7reg: pid 1 never exits in the window, pid 2 does. -/
def c7oracle : Nat → Bool := fun p => p = 2

/-- A completed session whose buffer holds one genuine output line that
    itself starts with the ERROR prefix. -/
def c9h : ProcessHandler :=
  { command := ["./job"], processSome := true, pid := some 7,
    state := .completed, error := none, exited := some 0,
    stdinOpen := false, stopEvent := true,
    buffer := { max_size_bytes := 1000, buffer := ["ERROR: boom"], current_size := 11 } }

/-- Registry holding only c9h under pid 7. -/
def c9reg : List (Nat × ProcessHandler) := [(7, c9h)]

/-- The (successful) result of searching c9h for the substring boom. -/
def c9hits : List String :=
  c9h.search_output rcTrivial gmTrivial "string" (some "boom") 2

theorem listLeads_append_left [DecidableEq α] (n p t : List α)
    (h : listLeads n p = true) : listLeads n (p ++ t) = true := by
  induction n generalizing p with
  | nil => simp [listLeads]
  | cons a as ih =>
      cases p with
      | nil => simp [listLeads] at h
      | cons b bs =>
          simp only [listLeads, Bool.and_eq_true, decide_eq_true_eq] at h ⊢
          exact ⟨h.1, ih bs (by simpa using h.2)⟩

theorem strLeads_append_left (n p t : String) (h : strLeads n p = true) :
    strLeads n (p ++ t) = true := by
  unfold strLeads at h ⊢
  rw [String.data_append]
  exact listLeads_append_left n.data p.data t.data h

theorem failed_ne_success (s : String) : ("failed: " ++ s) ≠ "success" := by
  intro h
  have hd := congrArg String.data h
  rw [String.data_append] at hd
  simp at hd

/-- Every KillStep lands in the completed state. -/
theorem KillStep.state_completed {h h2 : ProcessHandler} (k : KillStep h h2) :
    h2.state = PState.completed := by
  cases k with
  | mk c hp hk => rfl

/-- Every MarkerStep lands in the plain error state. -/
theorem MarkerStep.state_error {h h2 : ProcessHandler} (m : MarkerStep h h2) :
    h2.state = PState.error := by
  cases m with
  | mk msg => rfl

/-- Inversion for PollStep: the source process had some observed exit
    status and the target is the source with the polled state. -/
theorem PollStep.inv {h h2 : ProcessHandler} (s : PollStep h h2) :
    ∃ c, h.exited = some c ∧ h2 = { h with state := pollUpdate h.state (some c) } := by
  cases s with
  | mk c hex => exact ⟨c, hex, rfl⟩

/-- Claim C1 (capacity invariant of append). The code violates the
    invariant: appending the four-byte two-character entry of two e-acute
    characters to an empty buffer of capacity 2 retains the whole entry
    because the truncation slice data[-max_size_bytes:] counts characters,
    not bytes. The retained bytes (4) exceed the capacity (2) and differ
    from the recorded sizeBytes (2), while the claim requires the retained
    entry to be the trailing 2 bytes and sizeBytes to equal the retained
    byte total. -/
theorem C1_truncation_counts_chars_not_bytes :
    c1out.buffer = ["éé"] ∧
    c1out.current_size = 2 ∧
    bufBytes c1out.buffer = 4 ∧
    bufBytes c1out.buffer > c1out.max_size_bytes ∧
    (c1out.current_size : Int) ≠ (bufBytes c1out.buffer : Int) := by
  refine ⟨by decide, by decide, by decide, by decide, by decide⟩

/-- Claim C3, counterexample: a session in the plain Error state (a
    terminal state per the claim) with a process still attached is not
    rejected by kill: the guard admits the error state, the kill signal is
    sent (third component) and the call succeeds, moving the session to
    completed. -/
theorem C3_error_state_is_killable :
    c3h.state = PState.error ∧
    (c3h.kill true).2.1 = "success" ∧
    (c3h.kill true).2.2 = true ∧
    (c3h.kill true).1.state = PState.completed := by
  refine ⟨by decide, by decide, by decide, by decide⟩

/-- Claim C3, amended: with a process attached, kill fails with the
    StateError status and sends no signal when the state is Completed or
    the exit-code-carrying Error{exit code}; but in the plain Error state
    (pipeline failure detail) the guard passes and the kill signal is
    sent. -/
theorem C3_kill_guard (h : ProcessHandler) (obs : Bool)
    (hp : h.processSome = true) :
    ((h.state = PState.completed ∨ (∃ c, h.state = PState.errorExit c)) →
      h.kill obs = (h, "failed: Process not running", false)) ∧
    (h.state = PState.error → (h.kill obs).2.2 = true) := by
  constructor
  · intro ht
    have hk : stateKillable h.state = false := by
      rcases ht with hc | ⟨c, hc⟩ <;> rw [hc] <;> rfl
    simp [ProcessHandler.kill, hp, hk]
  · intro he
    have hk : stateKillable h.state = true := by rw [he]; rfl
    cases obs <;> simp [ProcessHandler.kill, hp, hk]

theorem C3_kill_guard_witness :
    c3done.kill true = (c3done, "failed: Process not running", false) :=
  (C3_kill_guard c3done true rfl).1 (Or.inl rfl)

/-- Claim C10, counterexample: in the event skeleton of
    ProcessManager.process_kill the delegated handler.kill, including its
    sleep-polling wait for process exit, runs while the registry lock is
    held, and the same holds for every delegated kill of all_kill; the
    claim says the registry lock is never held across the delegated
    operation. -/
theorem C10_delegation_inside_registry_lock :
    occursUnderRegLock isDelegate 0 (process_kill_trace 7) = true ∧
    occursUnderRegLock isSleep 0 (process_kill_trace 7) = true ∧
    occursUnderRegLock isDelegate 0 (all_kill_trace [1, 2]) = true := by
  refine ⟨by decide, by decide, by decide⟩

/-- Claim C10, amended: the registry lock is held while the delegated,
    potentially slow per-session kill (with its sleep-poll loop) runs,
    both in process_kill and in all_kill, so the registry lock serializes
    whole per-id and fleet operations rather than membership changes only;
    the absence of a nested-lock hazard does hold: the session-level kill
    never acquires the registry lock. -/
theorem C10_lock_discipline (pid : Nat) (pids : List Nat) :
    occursUnderRegLock isDelegate 0 (process_kill_trace pid) = true ∧
    occursUnderRegLock isSleep 0 (process_kill_trace pid) = true ∧
    Ev.regAcq ∉ handler_kill_trace ∧
    (pids ≠ [] → occursUnderRegLock isDelegate 0 (all_kill_trace pids) = true) := by
  refine ⟨?_, ?_, by decide, ?_⟩
  · simp [process_kill_trace, handler_kill_trace, occursUnderRegLock, isDelegate]
  · simp [process_kill_trace, handler_kill_trace, occursUnderRegLock, isDelegate, isSleep]
  · intro hne
    cases pids with
    | nil => exact absurd rfl hne
    | cons p rest =>
        simp [all_kill_trace, handler_kill_trace, occursUnderRegLock, isDelegate]

theorem C10_lock_discipline_witness :
    occursUnderRegLock isDelegate 0 (all_kill_trace [4]) = true :=
  (C10_lock_discipline 3 [4]).2.2.2 (by decide)

/-- Claim C2, counterexample: a successful kill is a second route from
    Running to Completed that does not require a zero exit status: the
    killed process exits with status -9 and the state is still set to
    completed, against the claim that Running transitions to Completed
    only when the process exited with a zero status. -/
theorem C2_kill_reaches_completed_nonzero_exit :
    SessionStep c2run c2killed ∧
    c2run.state = PState.running ∧
    c2killed.state = PState.completed ∧
    c2killed.exited = some (-9) ∧
    (-9 : Int) ≠ 0 :=
  ⟨Or.inr (Or.inl (KillStep.mk c2run (-9) rfl rfl)), rfl, rfl, rfl, by decide⟩

/-- Claim C2, amended: from Running, the session becomes Completed exactly
    when either a liveness poll (assembler idle check or status query)
    observed exit status zero or a kill succeeded (the latter regardless
    of the exit status), and becomes the exit-code-carrying Error{c} with
    c nonzero exactly when a poll observed that nonzero exit status; the
    queue-drain condition gates only the assembler thread's exit, not the
    state transition. -/
theorem C2_terminal_routes (h h2 : ProcessHandler)
    (hs : SessionStep h h2) (hrun : h.state = PState.running) :
    (h2.state = PState.completed ↔
      (PollStep h h2 ∧ h.exited = some 0) ∨ KillStep h h2) ∧
    (∀ c : Int, c ≠ 0 →
      (h2.state = PState.errorExit c ↔ PollStep h h2 ∧ h.exited = some c)) := by
  rcases hs with hp | hk | hm
  · obtain ⟨c0, hex, hrec⟩ := hp.inv
    subst hrec
    have hst : ({ h with state := pollUpdate h.state (some c0) } : ProcessHandler).state
        = pollUpdate PState.running (some c0) := by rw [hrun]
    by_cases hc0 : c0 = 0
    · subst hc0
      have hcomp : ({ h with state := pollUpdate h.state (some 0) } : ProcessHandler).state
          = PState.completed := by rw [hst]; simp [pollUpdate]
      refine ⟨⟨fun _ => Or.inl ⟨hp, hex⟩, fun _ => hcomp⟩, ?_⟩
      intro c hc
      refine ⟨fun habs => ?_, fun hrhs => ?_⟩
      · exact PState.noConfusion (hcomp.symm.trans habs)
      · exact absurd (Option.some.inj (hex.symm.trans hrhs.2)).symm hc
    · have herr : ({ h with state := pollUpdate h.state (some c0) } : ProcessHandler).state
          = PState.errorExit c0 := by rw [hst]; simp [pollUpdate, hc0]
      constructor
      · refine ⟨fun habs => ?_, fun hrhs => ?_⟩
        · exact PState.noConfusion (herr.symm.trans habs)
        · rcases hrhs with ⟨_, hex0⟩ | hkk
          · exact absurd (Option.some.inj (hex.symm.trans hex0)) hc0
          · exact PState.noConfusion (herr.symm.trans hkk.state_completed)
      · intro c hc
        refine ⟨fun habs => ?_, fun hrhs => ?_⟩
        · have hE := herr.symm.trans habs
          injection hE with h01
          exact ⟨hp, h01 ▸ hex⟩
        · have hcc : c0 = c := Option.some.inj (hex.symm.trans hrhs.2)
          rw [herr, hcc]
  · cases hk with
    | mk c0 hps hks =>
      constructor
      · exact ⟨fun _ => Or.inr (KillStep.mk h c0 hps hks), fun _ => rfl⟩
      · intro c hc
        refine ⟨fun habs => PState.noConfusion habs, fun hrhs => ?_⟩
        obtain ⟨hpoll, hexc⟩ := hrhs
        obtain ⟨c1, hex1, heq⟩ := hpoll.inv
        have hstate := congrArg ProcessHandler.state heq
        simp only [pollUpdate, hrun] at hstate
        by_cases hc1 : c1 = 0
        · subst hc1
          exact absurd (Option.some.inj (hex1.symm.trans hexc)).symm hc
        · simp [hc1] at hstate
  · cases hm with
    | mk msg =>
      constructor
      · refine ⟨fun habs => PState.noConfusion habs, fun hrhs => ?_⟩
        rcases hrhs with ⟨hpoll, _⟩ | hkk
        · obtain ⟨c1, hex1, heq⟩ := hpoll.inv
          have hstate := congrArg ProcessHandler.state heq
          simp only [pollUpdate, hrun] at hstate
          by_cases hc1 : c1 = 0 <;> simp [hc1] at hstate
        · exact PState.noConfusion hkk.state_completed
      · intro c hc
        refine ⟨fun habs => PState.noConfusion habs, fun hrhs => ?_⟩
        obtain ⟨hpoll, hexc⟩ := hrhs
        obtain ⟨c1, hex1, heq⟩ := hpoll.inv
        have hstate := congrArg ProcessHandler.state heq
        simp only [pollUpdate, hrun] at hstate
        by_cases hc1 : c1 = 0 <;> simp [hc1] at hstate

theorem C2_terminal_routes_witness :
    SessionStep c2wRun c2wDone ∧ c2wRun.state = PState.running ∧
    (c2wDone.state = PState.completed ↔
      (PollStep c2wRun c2wDone ∧ c2wRun.exited = some 0) ∨ KillStep c2wRun c2wDone) :=
  ⟨Or.inl (PollStep.mk c2wRun 0 rfl), rfl,
   (C2_terminal_routes c2wRun c2wDone (Or.inl (PollStep.mk c2wRun 0 rfl)) rfl).1⟩

/-- Claim C4, counterexample: the quantification over every pattern fails
    on the validation branches: a wildcard search with the empty pattern
    on a session with an empty buffer returns the in-band error entry,
    which is not a subsequence of the (empty) buffer contents. -/
theorem C4_error_entry_not_subsequence :
    c4h.search_output rcTrivial gmTrivial "wildcard" (some "") 5 =
      ["ERROR: Empty wildcard pattern provided"] ∧
    ¬ List.Sublist (c4h.search_output rcTrivial gmTrivial "wildcard" (some "") 5)
      c4h.buffer.buffer := by
  constructor
  · rfl
  · intro hsub
    have h0 : List.Sublist ["ERROR: Empty wildcard pattern provided"] ([] : List String) := hsub
    simp at h0

/-- Claim C4, amended: for every mode, pattern and n, the search result is
    either an in-band error report (first element carrying the ERROR
    prefix) or a subsequence of the current buffer contents with relative
    order preserved, equal to the filter of the contents by the mode's
    matcher truncated to the last n matches when n is positive and to all
    matches otherwise. -/
theorem C4_search_subsequence (h : ProcessHandler)
    (rc : String → Except String (String → Bool)) (gm : String → String → Bool)
    (st : String) (pat : Option String) (n : Int) :
    isErrorResult (h.search_output rc gm st pat n) = true ∨
    ∃ p : String → Bool,
      h.search_output rc gm st pat n =
        (if n ≤ 0 then h.buffer.buffer.filter p
         else pyLastN (h.buffer.buffer.filter p) n) ∧
      List.Sublist (h.search_output rc gm st pat n) h.buffer.buffer := by
  have hsub : ∀ (p : String → Bool),
      List.Sublist (if n ≤ 0 then h.buffer.buffer.filter p
        else pyLastN (h.buffer.buffer.filter p) n) h.buffer.buffer := by
    intro p
    by_cases hn : n ≤ 0
    · rw [if_pos hn]
      exact List.filter_sublist h.buffer.buffer
    · simp only [hn, if_false]
      exact (List.drop_sublist _ _).trans (List.filter_sublist h.buffer.buffer)
  unfold ProcessHandler.search_output
  by_cases h1 : st = "string"
  · simp only [h1, if_true, if_pos]
    cases pat with
    | none => left; rfl
    | some s =>
        right
        refine ⟨fun line => strHas s line, ?_, ?_⟩
        · simp [RingBuffer.search_string]
        · have := hsub (fun line => strHas s line)
          simpa [RingBuffer.search_string] using this
  · rw [if_neg h1]
    by_cases h2 : st = "regex"
    · rw [if_pos h2]
      cases pat with
      | none => left; rfl
      | some s =>
          cases hrc : rc s with
          | error e =>
              left
              simp only [RingBuffer.search_regex, hrc]
              show strLeads "ERROR:" ("ERROR: Invalid regex pattern: " ++ e) = true
              exact strLeads_append_left "ERROR:" "ERROR: Invalid regex pattern: " e (by decide)
          | ok p =>
              right
              refine ⟨p, ?_, ?_⟩
              · simp [RingBuffer.search_regex, hrc]
              · have := hsub p
                simpa [RingBuffer.search_regex, hrc] using this
    · rw [if_neg h2]
      by_cases h3 : st = "wildcard"
      · rw [if_pos h3]
        cases pat with
        | none => left; rfl
        | some s =>
            by_cases hs : s = ""
            · left
              rw [hs]
              show isErrorResult ["ERROR: Empty wildcard pattern provided"] = true
              decide
            · right
              refine ⟨fun line => gm (pyStrip line) s, ?_, ?_⟩
              · simp [RingBuffer.search_wildcard, hs]
              · have := hsub (fun line => gm (pyStrip line) s)
                simpa [RingBuffer.search_wildcard, hs] using this
      · rw [if_neg h3]
        left
        show strLeads "ERROR:" ("ERROR: Invalid search type: " ++ st) = true
        exact strLeads_append_left "ERROR:" "ERROR: Invalid search type: " st (by decide)

/-- Claim C5, counterexample: at the buffer level the string-mode search
    does not reject the empty pattern: searching a one-line buffer for the
    empty string silently returns the line (the empty string is contained
    in every line), a non-error list rather than a ValidationError. -/
theorem C5_empty_pattern_matches_all :
    RingBuffer.search_string c5rb (some "") 5 = ["alpha"] ∧
    isErrorResult (RingBuffer.search_string c5rb (some "") 5) = false := by
  refine ⟨by decide, by decide⟩

/-- Claim C5, amended: the registry-level search operations
    (stdio_search_lines and all_search) reject a None or empty pattern
    with the ValidationError entry for every mode; at the buffer level,
    search_string rejects only a None pattern and search_wildcard rejects
    the empty pattern, while a string-mode empty pattern silently matches
    every line. -/
theorem C5_pattern_validation (reg : List (Nat × ProcessHandler)) (pid : Nat)
    (h : ProcessHandler) (rc : String → Except String (String → Bool))
    (gm : String → String → Bool) (st : String) (n : Int) (rb : RingBuffer)
    (hl : regLookup reg pid = some h)
    (hm : st = "string" ∨ st = "regex" ∨ st = "wildcard") :
    (stdio_search_lines reg pid rc gm st none n).1 =
      ["ERROR: Search pattern cannot be empty"] ∧
    (stdio_search_lines reg pid rc gm st (some "") n).1 =
      ["ERROR: Search pattern cannot be empty"] ∧
    all_search reg rc gm st none n =
      [(-1, ["ERROR: Search pattern cannot be empty"])] ∧
    all_search reg rc gm st (some "") n =
      [(-1, ["ERROR: Search pattern cannot be empty"])] ∧
    RingBuffer.search_wildcard rb gm "" n = ["ERROR: Empty wildcard pattern provided"] ∧
    RingBuffer.search_string rb none n = ["ERROR: Search string cannot be None"] := by
  refine ⟨?_, ?_, ?_, ?_, ?_, ?_⟩
  · simp [stdio_search_lines, hl, hm]
  · simp [stdio_search_lines, hl, hm]
  · simp [all_search, hm]
  · simp [all_search, hm]
  · simp [RingBuffer.search_wildcard]
  · simp [RingBuffer.search_string]

theorem C5_pattern_validation_witness :
    (stdio_search_lines c5reg 3 rcTrivial gmTrivial "string" none 5).1 =
      ["ERROR: Search pattern cannot be empty"] :=
  (C5_pattern_validation c5reg 3 (mkHandler ["cat"]) rcTrivial gmTrivial "string" 5
    (emptyBuf 1) rfl (Or.inl rfl)).1

/-- Claim C6: each of the four typed spawn-exception branches sets the
    session state to Error (never Running), returns no pid and a failed
    status, and leaves the registry untouched; and the registry gains an
    entry only when start succeeded with the success status and a pid. -/
theorem C6_spawn_failure_typed :
    (∀ (reg : List (Nat × ProcessHandler)) (cmd : List String)
        (oc : SpawnOutcome) (m : String),
      cmd ≠ [] →
      (oc = SpawnOutcome.errNotFound m ∨ oc = SpawnOutcome.errIndexErr m ∨
        oc = SpawnOutcome.errPerm m ∨ oc = SpawnOutcome.errSub m) →
      ((mkHandler cmd).start oc).1.state = PState.error ∧
      ((mkHandler cmd).start oc).1.state ≠ PState.running ∧
      ((mkHandler cmd).start oc).2.2 = none ∧
      strLeads "failed" ((mkHandler cmd).start oc).2.1 = true ∧
      (process_start reg cmd oc).1 = reg) ∧
    (∀ (reg : List (Nat × ProcessHandler)) (cmd : List String) (oc : SpawnOutcome),
      (process_start reg cmd oc).1 ≠ reg →
      ∃ p, oc = SpawnOutcome.ok p ∧ (process_start reg cmd oc).2.1 = "success") := by
  constructor
  · intro reg cmd oc m hc he
    rcases he with h | h | h | h <;> subst h <;>
      refine ⟨?_, ?_, ?_, ?_, ?_⟩ <;>
        simp [ProcessHandler.start, mkHandler, process_start, hc]
    all_goals exact strLeads_append_left "failed" _ m (by decide)
  · intro reg cmd oc hne
    by_cases hcmd : cmd = []
    · simp [process_start, hcmd] at hne
    · cases oc with
      | ok p =>
          refine ⟨p, rfl, ?_⟩
          simp only [process_start, ProcessHandler.start, mkHandler, hcmd,
            if_neg hcmd, if_false, Bool.false_eq_true]
          split <;> rfl
      | errNotFound m => exact absurd (by simp [process_start, ProcessHandler.start, mkHandler, hcmd]) hne
      | errIndexErr m => exact absurd (by simp [process_start, ProcessHandler.start, mkHandler, hcmd]) hne
      | errPerm m => exact absurd (by simp [process_start, ProcessHandler.start, mkHandler, hcmd]) hne
      | errSub m => exact absurd (by simp [process_start, ProcessHandler.start, mkHandler, hcmd]) hne

theorem C6_spawn_failure_typed_witness :
    ((mkHandler ["missing"]).start (SpawnOutcome.errNotFound "no such file")).1.state
      = PState.error ∧
    (process_start [] ["missing"] (SpawnOutcome.errNotFound "no such file")).1 = [] :=
  ⟨(C6_spawn_failure_typed.1 [] ["missing"] (SpawnOutcome.errNotFound "no such file")
      "no such file" (by decide) (Or.inl rfl)).1,
   (C6_spawn_failure_typed.1 [] ["missing"] (SpawnOutcome.errNotFound "no such file")
      "no such file" (by decide) (Or.inl rfl)).2.2.2.2⟩

/-- Characterization of the all_kill fold: the new registry maps every
    running entry to its killed handler and leaves other entries alone,
    and the error list is exactly one PID-tagged message per running entry
    whose kill reported failure, in registry order. -/
theorem killFold_spec (oracle : Nat → Bool) (reg : List (Nat × ProcessHandler)) :
    killFold oracle reg =
      (reg.map (fun e =>
          (e.1, if e.2.state = PState.running then (e.2.kill (oracle e.1)).1 else e.2)),
       (reg.filter (killFailed oracle)).map (killFailMsg oracle)) := by
  induction reg with
  | nil => rfl
  | cons e rest ih =>
      obtain ⟨pid, h⟩ := e
      by_cases hr : h.state = PState.running
      · by_cases hf : strHas "failed" (h.kill (oracle pid)).2.1 = true
        · simp [killFold, ih, hr, hf, killFailed, killFailMsg, List.filter_cons]
        · simp [killFold, ih, hr, hf, killFailed, killFailMsg, List.filter_cons]
      · simp [killFold, ih, hr, killFailed, List.filter_cons]

/-- Claim C7: all_kill attempts a kill on exactly the running sessions
    (each entry of the snapshot is processed independently of the others'
    outcomes), reports success exactly when no attempted kill failed, and
    otherwise reports one aggregated failure that lists, in order, a
    PID-tagged message for every failing session. -/
theorem C7_all_kill_aggregation (reg : List (Nat × ProcessHandler)) (oracle : Nat → Bool) :
    (all_kill reg oracle).1 =
      reg.map (fun e =>
        (e.1, if e.2.state = PState.running then (e.2.kill (oracle e.1)).1 else e.2)) ∧
    (all_kill reg oracle).2 =
      (if reg.filter (killFailed oracle) = [] then "success"
       else "failed: " ++ joinSemi ((reg.filter (killFailed oracle)).map (killFailMsg oracle))) ∧
    ((all_kill reg oracle).2 = "success" ↔ ∀ e ∈ reg, killFailed oracle e = false) := by
  have hs := killFold_spec oracle reg
  have h1 : (all_kill reg oracle).1 =
      reg.map (fun e =>
        (e.1, if e.2.state = PState.running then (e.2.kill (oracle e.1)).1 else e.2)) := by
    simp [all_kill, hs]
  have h2 : (all_kill reg oracle).2 =
      (if reg.filter (killFailed oracle) = [] then "success"
       else "failed: " ++ joinSemi ((reg.filter (killFailed oracle)).map (killFailMsg oracle))) := by
    simp only [all_kill, hs]
    by_cases hnil : reg.filter (killFailed oracle) = []
    · simp [hnil]
    · rw [if_neg (by simpa using hnil), if_neg hnil]
  refine ⟨h1, h2, ?_⟩
  rw [h2]
  by_cases hnil : reg.filter (killFailed oracle) = []
  · rw [if_pos hnil]
    have hall : ∀ e ∈ reg, killFailed oracle e = false := by
      intro e he
      by_contra hex
      have hmem : e ∈ reg.filter (killFailed oracle) :=
        List.mem_filter.mpr ⟨he, by simpa using hex⟩
      rw [hnil] at hmem
      simp at hmem
    exact iff_of_true rfl hall
  · rw [if_neg hnil]
    constructor
    · intro habs
      exact absurd habs (failed_ne_success _)
    · intro hall
      exfalso
      obtain ⟨e, hmem⟩ := List.exists_mem_of_ne_nil _ hnil
      have := List.mem_filter.mp hmem
      have hfalse := hall e this.1
      rw [hfalse] at this
      exact Bool.false_ne_true this.2

theorem C7_all_kill_aggregation_witness :
    (all_kill c7reg c7oracle).2 = "success" ↔ ∀ e ∈ c7reg, killFailed c7oracle e = false :=
  (C7_all_kill_aggregation c7reg c7oracle).2.2

/-- Claim C8: every per-id operation invoked on an id that is absent from
    the registry fails with its not-found failure result and returns the
    registry mapping unchanged. -/
theorem C8_not_found (reg : List (Nat × ProcessHandler)) (pid : Nat)
    (pollr : Option Int) (obs : Bool) (n : Int) (line chars : String)
    (rc : String → Except String (String → Bool)) (gm : String → String → Bool)
    (st : String) (pat : Option String)
    (hnf : regLookup reg pid = none) :
    process_status reg pid pollr =
      ({ command := [], state := "error: Process not found", last_five_lines := "" }, reg) ∧
    process_kill reg pid obs = ("failed: Process not found", reg) ∧
    stdio_get_lines reg pid n = (["ERROR: Process not found: pid=" ++ toString pid], reg) ∧
    stdio_search_lines reg pid rc gm st pat n =
      (["ERROR: Process not found: pid=" ++ toString pid], reg) ∧
    stdio_send_line reg pid line = ("failed: Process not found", reg) ∧
    stdio_send_chars reg pid chars = ("failed: Process not found", reg) := by
  refine ⟨?_, ?_, ?_, ?_, ?_, ?_⟩ <;>
    simp [process_status, process_kill, stdio_get_lines, stdio_search_lines,
      stdio_send_line, stdio_send_chars, hnf]

theorem C8_not_found_witness :
    process_kill [] 9 true = ("failed: Process not found", []) :=
  (C8_not_found [] 9 none true 5 "x" "y" rcTrivial gmTrivial "string" none rfl).2.1

/-- Claim C9: search failures are in-band. The per-id search returns the
    plain match list (here a genuine successful single match whose line
    happens to begin with the ERROR prefix), that list is classified as a
    failure by the first-element prefix rule, and all_search therefore
    diverts the session's match into the aggregated sentinel failure entry
    and omits the session from the results; in general a session is
    diverted exactly when its result satisfies the prefix classifier. -/
theorem C9_inband_error_ambiguity :
    c9hits = ["ERROR: boom"] ∧
    isErrorResult c9hits = true ∧
    (stdio_search_lines c9reg 7 rcTrivial gmTrivial "string" (some "boom") 2).1 = c9hits ∧
    all_search c9reg rcTrivial gmTrivial "string" (some "boom") 2 =
      [(-1, ["ERROR: PID 7: ERROR: boom"])] ∧
    (∀ (pid2 : Nat) (h2 : ProcessHandler) (rest : List (Nat × ProcessHandler)),
      (searchFold rcTrivial gmTrivial "string" (some "boom") 2 ((pid2, h2) :: rest)).2 ≠
        (searchFold rcTrivial gmTrivial "string" (some "boom") 2 rest).2 ↔
      isErrorResult (h2.search_output rcTrivial gmTrivial "string" (some "boom") 2) = true) := by
  refine ⟨by decide, by decide, by decide, by decide, ?_⟩
  intro pid2 h2 rest
  by_cases he : isErrorResult (h2.search_output rcTrivial gmTrivial "string" (some "boom") 2) = true
  · have hL : (searchFold rcTrivial gmTrivial "string" (some "boom") 2 ((pid2, h2) :: rest)).2 =
        ("PID " ++ toString pid2 ++ ": " ++
          (h2.search_output rcTrivial gmTrivial "string" (some "boom") 2).headD "") ::
        (searchFold rcTrivial gmTrivial "string" (some "boom") 2 rest).2 := by
      simp [searchFold, he]
    refine iff_of_true ?_ he
    rw [hL]
    exact List.cons_ne_self _ _
  · have hEq : (searchFold rcTrivial gmTrivial "string" (some "boom") 2 ((pid2, h2) :: rest)).2 =
        (searchFold rcTrivial gmTrivial "string" (some "boom") 2 rest).2 := by
      simp only [searchFold]
      rw [if_neg he]
      split <;> rfl
    exact iff_of_false (fun hne => hne hEq) he
